import Mathlib

/-!
Shallow embedding of the fighter-lookup / bout-prediction service
(`src/service/fighter_service.py`) and of the factor-rendering logic of
`src/pages/predict.py`.

Modelling conventions:
* A pandas DataFrame row of the per-fighter table (the columns kept for one
  fighter: everything except `is_winner` and the `_opponent` columns) is a
  `Row`.  Numeric cells are `Option ℚ`: `none` stands for a missing value
  (IEEE NaN in the source); non-finite results of arithmetic (NaN, division
  by zero) are likewise collapsed to `none`.  No claim inspects such values.
* Python dicts are association lists with last-write-wins insertion
  (`dictInsert`) and unique keys; `collections.defaultdict(list)` is an
  association list whose read operation `ddLookup` inserts an empty entry on
  a missing key, exactly as `defaultdict.__getitem__` does.
* The pickled model bundle is opaque: the classifier is a pair of functions
  giving the two `predict_proba` columns for one bout row, and the SHAP
  explainer a function giving the class-`True` attribution vector of one bout
  row (`shap.TreeExplainer` is per-row deterministic).  The column selection
  `bout[features]` composed with an opaque function is again an opaque
  function, so the feature list is not modelled separately.
* `str()` rendering of a float is abstracted to decimal rendering of the
  rational (`pyStrFloat`); a missing value renders as "nan" as in Python.
  No claim distinguishes two non-"nan" renderings.
* The `temp_id_` merge key of `__makeBoutDf` is a random integer used only
  to cross-join two single-row frames and dropped before return; the
  cross-join of two one-row frames is simply the pairing of the rows.
-/

/-- One row of the per-fighter statistics table (`csv/fighters.csv`) after
dropping `is_winner` and the `_opponent` columns: identity, weight class,
date, the four individually exposed numeric statistics, the stance, and the
remaining numeric performance columns. -/
structure Row where
  fighter : String
  weight_class : String
  date : Nat
  Reach_cms : Option ℚ
  Height_cms : Option ℚ
  wins : Option ℚ
  losses : Option ℚ
  Stance : String
  extra : List (String × Option ℚ)
deriving DecidableEq, Inhabited

/-- Python `x != numpy.NaN`.  IEEE comparison against NaN is never equal, so
this is `true` for every float `x` — including NaN itself.  The `else "-"`
branches guarded by it in `__init__` are dead code. -/
def pyNeqNaN (_ : Option ℚ) : Bool := true

/-- Python `str(x)` for a float cell: a missing value prints as "nan";
decimal formatting of a present value is abstracted to rational rendering. -/
def pyStrFloat : Option ℚ → String
  | none => "nan"
  | some q => toString q

/-- Python `int(x)` for a float cell: truncation toward zero; `int(nan)`
raises `ValueError`, modelled as `none`. -/
def pyInt : Option ℚ → Option ℤ
  | none => none
  | some q => some (Int.tdiv q.num q.den)

/-- Python `x + 1` on a float cell (NaN propagates). -/
def pyAdd1 : Option ℚ → Option ℚ := Option.map (· + 1)

/-- Python `a / b` on float cells: NaN operands propagate and a zero
divisor yields a non-finite value, all collapsed to `none`. -/
def pyDiv (a b : Option ℚ) : Option ℚ :=
  match a, b with
  | some x, some y => if y = 0 then none else some (x / y)
  | _, _ => none

/-- Python `str.strip()`: drop leading and trailing whitespace.  Defined
over the character list so that it evaluates by kernel reduction. -/
def pyStrip (s : String) : String :=
  ⟨((s.data.dropWhile Char.isWhitespace).reverse.dropWhile
      Char.isWhitespace).reverse⟩

/-- Lookup in a plain Python dict, modelled as an association list with
unique keys. -/
def dictGet {α : Type} : List (String × α) → String → Option α
  | [], _ => none
  | p :: rest, k => if p.1 = k then some p.2 else dictGet rest k

/-- Insertion into a plain Python dict: overwrite the binding if the key is
present, append it otherwise. -/
def dictInsert {α : Type} : List (String × α) → String → α → List (String × α)
  | [], k, v => [(k, v)]
  | p :: rest, k, v => if p.1 = k then (k, v) :: rest else p :: dictInsert rest k v

/-- Read of a `defaultdict(list)` without the insertion side effect. -/
def ddGet : List (String × List String) → String → List String
  | [], _ => []
  | p :: rest, k => if p.1 = k then p.2 else ddGet rest k

/-- Key-membership test for a `defaultdict(list)`. -/
def ddHasKey : List (String × List String) → String → Bool
  | [], _ => false
  | p :: rest, k => p.1 = k || ddHasKey rest k

/-- Python `defaultdict.__getitem__`: return the list under the key, inserting an
empty list (at the end, Python dicts keep insertion order) when the key is
missing.  Returns the value together with the possibly-extended dict. -/
def ddLookup (dd : List (String × List String)) (k : String) :
    List String × List (String × List String) :=
  if ddHasKey dd k then (ddGet dd k, dd) else ([], dd ++ [(k, [])])

/-- Python `defaultdict(list)[k].append(v)`. -/
def ddAppend : List (String × List String) → String → String → List (String × List String)
  | [], k, v => [(k, [v])]
  | p :: rest, k, v =>
    if p.1 = k then (p.1, p.2 ++ [v]) :: rest else p :: ddAppend rest k v

/-- Python `tuple(set(xs))`: deduplication; the unspecified set iteration
order is fixed to first-occurrence order. -/
def pySetDedup : List String → List String
  | [] => []
  | x :: rest => if x ∈ rest then pySetDedup rest else x :: pySetDedup rest

/-- One row of the bout frame built by `__makeBoutDf`: the unsuffixed
columns of one fighter (`base`), the `_opponent`-suffixed columns of the
other (`opponent`), the derived `_ratio` columns, and `stance_config`. -/
structure BoutRow where
  base : Row
  opponent : Row
  ratios : List (String × Option ℚ)
  stance_config : String
deriving DecidableEq, Inhabited

/-- The opaque pickled model bundle: the two `predict_proba` columns of the
random-forest pipeline on one bout row (columns "True" and "False" of the
probas frame), the class-`True` SHAP attribution vector of one bout row
(pairs of encoded-column name and value), and the feature-code to
human-label dictionary `feature_to_name`. -/
structure Model where
  probaTrue : BoutRow → ℚ
  probaFalse : BoutRow → ℚ
  shapTrue : BoutRow → List (String × ℚ)
  feature_to_name : List (String × String)
deriving Inhabited

/-- The numeric columns of a fighter row, in column order. -/
def Row.numericCols (r : Row) : List (String × Option ℚ) :=
  [("Reach_cms", r.Reach_cms), ("Height_cms", r.Height_cms),
   ("wins", r.wins), ("losses", r.losses)] ++ r.extra

/-- One orientation of the bout frame: merge of the two single-row frames
with `_opponent` suffixes, the ratio columns
`(self + 1) / (opponent + 1)` for each numeric column, and the combined
`stance_config` string. -/
def mkBoutRow (a b : Row) : BoutRow :=
  { base := a
    opponent := b
    ratios :=
      (a.numericCols.zip b.numericCols).map fun p =>
        (p.1.1 ++ "_ratio", pyDiv (pyAdd1 p.1.2) (pyAdd1 p.2.2))
    stance_config := a.Stance ++ "-" ++ b.Stance }

/-- Stable-by-construction insertion sort of rows by ascending date,
modelling `sort_values(by="date")`.  The source uses an unstable quicksort,
so the order among rows of equal date is unspecified; this model fixes one
refinement of it. -/
def insertByDate (r : Row) : List Row → List Row
  | [] => [r]
  | x :: xs => if x.date ≤ r.date then x :: insertByDate r xs else r :: x :: xs

/-- The source line `fighters_individual_df.sort_values(by="date")`. -/
def sortByDate : List Row → List Row
  | [] => []
  | r :: rest => insertByDate r (sortByDate rest)

/-- Pandas `groupby("fighter").tail(1)` on the date-sorted frame: keep, in frame
order, the last row of each fighter. -/
def keepLastByFighter : List Row → List Row
  | [] => []
  | r :: rest =>
    if rest.any (fun x => x.fighter = r.fighter) then keepLastByFighter rest
    else r :: keepLastByFighter rest

/-- The table `self.__latest_fights`: latest known row of each fighter. -/
def latestFights (df : List Row) : List Row :=
  keepLastByFighter (sortByDate df)

/-- The map `self.__weight_to_fighters`: for every row of the full table, append
the fighter of each row to the `defaultdict(list)` entry of the weight
class of that row. -/
def mkWeightToFighters (df : List Row) : List (String × List String) :=
  df.foldl (fun dd r => ddAppend dd r.weight_class r.fighter) []

/-- One value of `self.__fighters_to_reach`:
`(str(r) + " cms") if r != np.NaN else "-"` — the guard is always true. -/
def reachCell (r : Option ℚ) : String :=
  if pyNeqNaN r then pyStrFloat r ++ " cms" else "-"

/-- The map `self.__fighters_to_reach` built from the latest-fights rows. -/
def mkReachMap (latest : List Row) : List (String × String) :=
  latest.foldl (fun d r => dictInsert d r.fighter (reachCell r.Reach_cms)) []

/-- The map `self.__fighters_to_height` built from the latest-fights rows. -/
def mkHeightMap (latest : List Row) : List (String × String) :=
  latest.foldl (fun d r => dictInsert d r.fighter (reachCell r.Height_cms)) []

/-- One value of `self.__fighters_to_wins`:
`str(int(w)) if w != np.NaN else "-"`.  The guard is always true, so a
missing cell reaches `int(nan)`, which raises `ValueError` (`none`). -/
def winsCell (w : Option ℚ) : Option String :=
  if pyNeqNaN w then (pyInt w).map toString else some "-"

/-- The map `self.__fighters_to_wins`; `none` when the comprehension raises. -/
def mkWinsMap (latest : List Row) : Option (List (String × String)) :=
  latest.foldlM (fun d r => (winsCell r.wins).map (dictInsert d r.fighter)) []

/-- The map `self.__fighters_to_losses`; `none` when the comprehension raises. -/
def mkLossesMap (latest : List Row) : Option (List (String × String)) :=
  latest.foldlM (fun d r => (winsCell r.losses).map (dictInsert d r.fighter)) []

/-- The in-memory state built by `FighterService.__init__`.  The nickname
values of the nickname map are `Option String`, `none` standing for a NaN cell of the
`nick` column. -/
structure FighterService where
  fighters : List String
  weight_to_fighters : List (String × List String)
  fighters_to_nicks : List (String × Option String)
  latest_fights : List Row
  fighters_to_reach : List (String × String)
  fighters_to_height : List (String × String)
  fighters_to_wins : List (String × String)
  fighters_to_losses : List (String × String)
  model : Model
deriving Inhabited

/-- The constructor `FighterService.__init__` on the fighters table, the sherdog
name-to-nick pairs, and the unpickled model bundle.  Returns `none` when
the constructor raises (a NaN `wins` or `losses` cell of a latest row).
The post-construction median imputation of `__fighters_df` (lines 88-94)
touches only the frame returned by `getFightersDF`, which no claim uses,
and is omitted. -/
def initFighterService (fighters_df : List Row)
    (sherdog : List (String × Option String)) (m : Model) :
    Option FighterService :=
  match mkWinsMap (latestFights fighters_df), mkLossesMap (latestFights fighters_df) with
  | some winsMap, some lossesMap =>
      some { fighters := pySetDedup (fighters_df.map (fun r => r.fighter))
             weight_to_fighters := mkWeightToFighters fighters_df
             fighters_to_nicks :=
               sherdog.foldl (fun d p => dictInsert d p.1 p.2) []
             latest_fights := latestFights fighters_df
             fighters_to_reach := mkReachMap (latestFights fighters_df)
             fighters_to_height := mkHeightMap (latestFights fighters_df)
             fighters_to_wins := winsMap
             fighters_to_losses := lossesMap
             model := m }
  | _, _ => none

/-- Accessor `getNickname`: empty string when the fighter is unknown or the stored
nick is NaN (caught by identity with `np.NaN`) or the string "nan". -/
def getNickname (s : FighterService) (fighter : String) : String :=
  match dictGet s.fighters_to_nicks fighter with
  | none => ""
  | some nick =>
    match nick with
    | none => ""
    | some n => if n = "nan" then "" else n

/-- Accessor `getReach`: "-" when the fighter is unknown or the stored string is a
NaN rendering. -/
def getReach (s : FighterService) (fighter : String) : String :=
  match dictGet s.fighters_to_reach fighter with
  | none => "-"
  | some v =>
    let res := pyStrip v
    if res = "nan" ∨ res = "nan cms" then "-" else res

/-- Accessor `getHeight`: same shape as `getReach` over the height map. -/
def getHeight (s : FighterService) (fighter : String) : String :=
  match dictGet s.fighters_to_height fighter with
  | none => "-"
  | some v =>
    let res := pyStrip v
    if res = "nan" ∨ res = "nan cms" then "-" else res

/-- Accessor `getWins`: the stored string, or "-" when the fighter is unknown. -/
def getWins (s : FighterService) (fighter : String) : String :=
  match dictGet s.fighters_to_wins fighter with
  | none => "-"
  | some v => v

/-- Accessor `getLosses`: the stored string, or "-" when the fighter is unknown. -/
def getLosses (s : FighterService) (fighter : String) : String :=
  match dictGet s.fighters_to_losses fighter with
  | none => "-"
  | some v => v

/-- Python truthiness of the optional `weight_class` argument: `None` and
the empty string are falsy. -/
def pyFalsyStr : Option String → Bool
  | none => true
  | some s => s = ""

/-- Query `getAllFighters(weight_class=None)`: the full roster when the argument
is falsy, otherwise the `defaultdict` entry of the class.  The
`defaultdict` read inserts an empty entry on a missing key, so the call
returns the possibly-updated service state alongside the value. -/
def getAllFighters (s : FighterService) (weight_class : Option String) :
    List String × FighterService :=
  if pyFalsyStr weight_class then (s.fighters, s)
  else
    ((ddLookup s.weight_to_fighters (weight_class.getD "")).1,
     { s with weight_to_fighters :=
         (ddLookup s.weight_to_fighters (weight_class.getD "")).2 })

/-- Query `getWeightClasses`: the hard-coded (label, value) enumeration. -/
def getWeightClasses : List (String × String) :=
  [("Heavyweight", "Heavyweight"),
   ("Light Heavyweight (205 lbs.)", "Light Heavyweight"),
   ("Middleweight (185 lbs.)", "Middleweight"),
   ("Welterweight (170 lbs.)", "Welterweight"),
   ("Lightweight (155 lbs.)", "Lightweight"),
   ("Featherweight (145 lbs.)", "Featherweight"),
   ("Bantamweight (135 lbs.)", "Bantamweight"),
   ("Flyweight (125 lbs.)", "Flyweight"),
   ("Women\x27s Featherweight (145 lbs.)", "Women\x27s Featherweight"),
   ("Women\x27s Bantamweight (135 lbs.)", "Women\x27s Bantamweight"),
   ("Women\x27s Flyweight (125 lbs.)", "Women\x27s Flyweight"),
   ("Women\x27s Strawweight (115 lbs.)", "Women\x27s Strawweight"),
   ("Open Weight", "")]

/-- Helper `__getByFighter`: the latest-fights rows whose `fighter` column equals
the name. -/
def getByFighter (s : FighterService) (fighter_name : String) : List Row :=
  s.latest_fights.filter (fun r => r.fighter = fighter_name)

/-- Helper `__makeBoutDf`: `None` unless each name matches exactly one latest row;
otherwise the two orientations of the bout frame, first row
fighter1-as-self, second row fighter2-as-self. -/
def makeBoutDf (s : FighterService) (fighter1 fighter2 : String) :
    Option (BoutRow × BoutRow) :=
  match getByFighter s fighter1, getByFighter s fighter2 with
  | [r1], [r2] => some (mkBoutRow r1 r2, mkBoutRow r2 r1)
  | _, _ => none

/-- Insert one (column, value) pair into a value-sorted attribution list:
placed after every entry of smaller-or-equal value. -/
def insertShap (p : String × ℚ) : List (String × ℚ) → List (String × ℚ)
  | [] => [p]
  | q :: rest => if q.2 ≤ p.2 then q :: insertShap p rest else p :: q :: rest

/-- The call `shap_values.sort_values()`: ascending sort of the attribution series
by value.  The source uses an unstable quicksort; tie order is one fixed
refinement. -/
def sortShaps : List (String × ℚ) → List (String × ℚ)
  | [] => []
  | p :: rest => insertShap p (sortShaps rest)

/-- The label expression `self.__feature_to_name[s].strip() if s in
self.__feature_to_name else ""`. -/
def shapLabel (m : Model) (code : String) : String :=
  match dictGet m.feature_to_name code with
  | none => ""
  | some n => pyStrip n

/-- Python `l[-3:]`: the last `n` elements (the whole list when shorter). -/
def takeLast {α : Type} (n : Nat) (l : List α) : List α :=
  l.drop (l.length - n)

/-- The common tail of `doPrediction` after the winner branch: sort the
attribution series of the winner ascending, label the three lowest entries as
opposing factors and the three highest as supporting factors, and return
`(winner_prob*100, winner, pos_shaps, neg_shaps)`. -/
def mkResult (s : FighterService) (winner : String) (winner_prob : ℚ)
    (shap_values : List (String × ℚ)) : ℚ × String × List String × List String :=
  let sortedIdx := (sortShaps shap_values).map (fun p => p.1)
  let neg_shaps := (sortedIdx.take 3).map (shapLabel s.model)
  let pos_shaps := (takeLast 3 sortedIdx).map (shapLabel s.model)
  (winner_prob * 100, winner, pos_shaps, neg_shaps)

/-- Predictor `doPrediction(red_fighter, blue_fighter)`: the guard cascade on empty
or equal names, the latest-snapshot lookup, the per-fighter averaging of
the two orientation probabilities, the strict comparison choosing the
winner, and the factor extraction from the attribution row of the winner. -/
def doPrediction (s : FighterService) (red_fighter blue_fighter : String) :
    ℚ × String × List String × List String :=
  if red_fighter ≠ "" ∧ blue_fighter = "" then (100, red_fighter, [], [])
  else if red_fighter = "" ∧ blue_fighter ≠ "" then (100, blue_fighter, [], [])
  else if red_fighter = "" ∧ blue_fighter = "" then (100, "-", [], [])
  else if red_fighter = blue_fighter then (100, red_fighter, [], [])
  else
    match makeBoutDf s red_fighter blue_fighter with
    | none => (100, "-", [], [])
    | some (row0, row1) =>
      let red_fighter_prob :=
        (s.model.probaTrue row0 + s.model.probaFalse row1) / 2
      let blue_fighter_prob :=
        (s.model.probaFalse row0 + s.model.probaTrue row1) / 2
      if red_fighter_prob > blue_fighter_prob then
        mkResult s red_fighter red_fighter_prob (s.model.shapTrue row0)
      else
        mkResult s blue_fighter blue_fighter_prob (s.model.shapTrue row1)

/-- The pair of per-fighter averaged probabilities (red, blue) that
`doPrediction` compares, when the bout frame exists. -/
def predProbs (s : FighterService) (f1 f2 : String) : Option (ℚ × ℚ) :=
  (makeBoutDf s f1 f2).map fun b =>
    ((s.model.probaTrue b.1 + s.model.probaFalse b.2) / 2,
     (s.model.probaFalse b.1 + s.model.probaTrue b.2) / 2)

/-- The bullet list one factor section of `makePrediction` renders from
three factor labels: the first unconditionally, the second when non-empty
and different from the first, the third when non-empty and different from
both. -/
def renderBullets (b1 b2 b3 : String) : List String :=
  [b1] ++ (if b2 ≠ "" ∧ b2 ≠ b1 then [b2] else [])
       ++ (if b3 ≠ "" ∧ b3 ∉ [b1, b2] then [b3] else [])

/-!
Concrete instances used by witnesses and counterexamples.
-/

/-- A latest-fights row for fighter "A". -/
def exRowA : Row :=
  { fighter := "A", weight_class := "Lightweight", date := 1
    Reach_cms := some 180, Height_cms := some 175
    wins := some 10, losses := some 2, Stance := "Orthodox", extra := [] }

/-- A latest-fights row for fighter "B". -/
def exRowB : Row :=
  { fighter := "B", weight_class := "Lightweight", date := 1
    Reach_cms := some 185, Height_cms := some 178
    wins := some 8, losses := some 4, Stance := "Southpaw", extra := [] }

/-- An opaque model instance that favours fighter "A" (averaged
probabilities 9/10 against 1/10) and maps only code "c5" to a label. -/
def exModel2 : Model :=
  { probaTrue := fun b => if b.base.fighter = "A" then 9/10 else 1/10
    probaFalse := fun b => if b.base.fighter = "A" then 1/10 else 9/10
    shapTrue := fun _ =>
      [("c1", -3), ("c2", -2), ("c3", -1), ("c4", 1), ("c5", 2), ("c6", 3)]
    feature_to_name := [("c5", "Label")] }

/-- A service state with fighters "A" and "B" and the model `exModel2`. -/
def cs2 : FighterService :=
  { fighters := ["A", "B"]
    weight_to_fighters := [("Lightweight", ["A", "B"])]
    fighters_to_nicks := []
    latest_fights := [exRowA, exRowB]
    fighters_to_reach := []
    fighters_to_height := []
    fighters_to_wins := []
    fighters_to_losses := []
    model := exModel2 }

/-- An opaque model instance whose two orientation probabilities are
exactly tied (every row scores 1/2 for each class). -/
def tieModel : Model :=
  { probaTrue := fun _ => 1/2
    probaFalse := fun _ => 1/2
    shapTrue := fun _ => [("c1", 0)]
    feature_to_name := [] }

/-- The service state `cs2` with the tied model. -/
def cs1 : FighterService := { cs2 with model := tieModel }

/-- A fighters table in which fighter "X" fought at Lightweight (date 1)
and then at Welterweight (date 2), and fighter "Y" only at Lightweight. -/
def exDf3 : List Row :=
  [{ fighter := "X", weight_class := "Lightweight", date := 1
     Reach_cms := some 170, Height_cms := some 170
     wins := some 3, losses := some 1, Stance := "Orthodox", extra := [] },
   { fighter := "X", weight_class := "Welterweight", date := 2
     Reach_cms := some 171, Height_cms := some 170
     wins := some 4, losses := some 1, Stance := "Orthodox", extra := [] },
   { fighter := "Y", weight_class := "Lightweight", date := 1
     Reach_cms := some 165, Height_cms := some 168
     wins := some 5, losses := some 0, Stance := "Southpaw", extra := [] }]

/-- The service state constructed from `exDf3` (the construction
succeeds: no latest row has a missing wins or losses cell). -/
def exService3 : FighterService :=
  (initFighterService exDf3 [] tieModel).getD default

/-- A fighters table whose single row has a missing (NaN) `wins` cell. -/
def exDf4 : List Row :=
  [{ fighter := "X", weight_class := "Lightweight", date := 1
     Reach_cms := some 170, Height_cms := none
     wins := none, losses := some 1, Stance := "Orthodox", extra := [] }]

section

/- `Rat.add`, `Rat.mul`, `Rat.inv` and `Rat.sub` are `@[irreducible]` in
Batteries; witnesses and counterexamples evaluate concrete rational
arithmetic with `decide`, which needs them unfolded. -/
attribute [local semireducible] Rat.add Rat.mul Rat.inv Rat.sub

/-!
Helper lemmas.
-/

/-- The winner component of the common result tail is the winner passed in. -/
theorem mkResult_winner (s : FighterService) (w : String) (p : ℚ)
    (sv : List (String × ℚ)) : (mkResult s w p sv).2.1 = w := rfl

/-- Python `l[-3:]` never yields more than `n` elements. -/
theorem length_takeLast_le {α : Type} (n : Nat) (l : List α) :
    (takeLast n l).length ≤ n := by
  simp only [takeLast, List.length_drop]
  omega

/-- The supporting-factor list of the common result tail has at most three
entries. -/
theorem mkResult_pos_len (s : FighterService) (w : String) (p : ℚ)
    (sv : List (String × ℚ)) : (mkResult s w p sv).2.2.1.length ≤ 3 := by
  simp only [mkResult, List.length_map]
  exact length_takeLast_le 3 _

/-- The opposing-factor list of the common result tail has at most three
entries. -/
theorem mkResult_neg_len (s : FighterService) (w : String) (p : ℚ)
    (sv : List (String × ℚ)) : (mkResult s w p sv).2.2.2.length ≤ 3 := by
  simp only [mkResult, List.length_map, List.length_take]
  omega

/-- Every `doPrediction` result is either a sentinel result with empty
factor lists or a `mkResult` tail. -/
theorem doPrediction_cases (s : FighterService) (red blue : String) :
    (∃ w, doPrediction s red blue = (100, w, [], [])) ∨
    ∃ w p sv, doPrediction s red blue = mkResult s w p sv := by
  unfold doPrediction
  split_ifs
  · exact Or.inl ⟨red, rfl⟩
  · exact Or.inl ⟨blue, rfl⟩
  · exact Or.inl ⟨"-", rfl⟩
  · exact Or.inl ⟨red, rfl⟩
  · rcases makeBoutDf s red blue with _ | ⟨r0, r1⟩
    · exact Or.inl ⟨"-", rfl⟩
    · dsimp only
      split_ifs
      · exact Or.inr ⟨red, _, _, rfl⟩
      · exact Or.inr ⟨blue, _, _, rfl⟩

/-- When one of the two names does not match exactly one latest row, the
bout frame is `None`. -/
theorem makeBoutDf_eq_none (s : FighterService) (f1 f2 : String)
    (h : (getByFighter s f1).length ≠ 1 ∨ (getByFighter s f2).length ≠ 1) :
    makeBoutDf s f1 f2 = none := by
  unfold makeBoutDf
  rcases h1 : getByFighter s f1 with _ | ⟨a, _ | ⟨b, t⟩⟩ <;>
    rcases h2 : getByFighter s f2 with _ | ⟨c, _ | ⟨d, u⟩⟩ <;>
    simp_all

/-!
Claims C4, C5, C6, C7, C8, C10.
-/

/-- Claim C4 (code bug).  On a fighters table whose single row has a
missing `wins` value, the wins-map comprehension raises (the `!= np.NaN`
guard never fires, so `int(nan)` is reached) and `__init__` fails, where
the claim — matching the docstring of the accessor and the dead `else "-"`
branch — says construction succeeds and `getWins` returns "-". -/
theorem winsMap_raises_on_nan :
    mkWinsMap (latestFights exDf4) = none ∧
    initFighterService exDf4 [] tieModel = none :=
  ⟨rfl, rfl⟩

/-- Claim C5 (confirmed).  For every string absent from the respective
lookup tables, each accessor returns its placeholder: `getNickname` the
empty string, and `getReach`, `getHeight`, `getWins`, `getLosses` "-". -/
theorem accessors_unknown_placeholder (s : FighterService) (f : String)
    (h1 : dictGet s.fighters_to_nicks f = none)
    (h2 : dictGet s.fighters_to_reach f = none)
    (h3 : dictGet s.fighters_to_height f = none)
    (h4 : dictGet s.fighters_to_wins f = none)
    (h5 : dictGet s.fighters_to_losses f = none) :
    getNickname s f = "" ∧ getReach s f = "-" ∧ getHeight s f = "-" ∧
      getWins s f = "-" ∧ getLosses s f = "-" := by
  simp [getNickname, getReach, getHeight, getWins, getLosses,
    h1, h2, h3, h4, h5]

/-- Witness for C5 at a concrete state and name. -/
theorem accessors_unknown_placeholder_w :
    getNickname cs2 "Nobody" = "" ∧ getReach cs2 "Nobody" = "-" ∧
      getHeight cs2 "Nobody" = "-" ∧ getWins cs2 "Nobody" = "-" ∧
      getLosses cs2 "Nobody" = "-" :=
  accessors_unknown_placeholder cs2 "Nobody" rfl rfl rfl rfl rfl

/-- Claim C6 (confirmed).  For every non-empty string `f`, known fighter
or not, `doPrediction f ""` and `doPrediction "" f` both return
confidence 100, winner `f` and two empty factor lists. -/
theorem doPrediction_one_empty (s : FighterService) (f : String)
    (hf : f ≠ "") :
    doPrediction s f "" = (100, f, [], []) ∧
    doPrediction s "" f = (100, f, [], []) := by
  constructor <;> simp [doPrediction, hf]

/-- Witness for C6 at a concrete state and name. -/
theorem doPrediction_one_empty_w :
    doPrediction cs2 "Nobody" "" = (100, "Nobody", [], []) ∧
    doPrediction cs2 "" "Nobody" = (100, "Nobody", [], []) :=
  doPrediction_one_empty cs2 "Nobody" (by decide)

/-- Claim C7 (confirmed).  `doPrediction "" ""` returns the sentinel
winner "-" with confidence 100 and empty factor lists, and for every
non-empty `f`, `doPrediction f f` returns winner `f`, confidence 100 and
empty factor lists. -/
theorem doPrediction_self_or_both_empty (s : FighterService) (f : String)
    (hf : f ≠ "") :
    doPrediction s "" "" = (100, "-", [], []) ∧
    doPrediction s f f = (100, f, [], []) := by
  constructor <;> simp [doPrediction, hf]

/-- Witness for C7 at a concrete state and name. -/
theorem doPrediction_self_or_both_empty_w :
    doPrediction cs2 "" "" = (100, "-", [], []) ∧
    doPrediction cs2 "A" "A" = (100, "A", [], []) :=
  doPrediction_self_or_both_empty cs2 "A" (by decide)

/-- Claim C8 (confirmed).  For distinct non-empty names of which at least
one matches zero or several latest rows, `doPrediction` returns the
no-prediction sentinel (confidence 100, winner "-", empty factor lists);
the scoring branch is never reached since `__makeBoutDf` returns `None`
before it. -/
theorem doPrediction_missing_snapshot (s : FighterService)
    (red blue : String) (hr : red ≠ "") (hb : blue ≠ "") (hrb : red ≠ blue)
    (h : (getByFighter s red).length ≠ 1 ∨ (getByFighter s blue).length ≠ 1) :
    doPrediction s red blue = (100, "-", [], []) := by
  have hn := makeBoutDf_eq_none s red blue h
  simp [doPrediction, hr, hb, hrb, hn]

/-- Witness for C8 at a concrete state and names with no latest rows. -/
theorem doPrediction_missing_snapshot_w :
    doPrediction cs2 "Nobody" "Phantom" = (100, "-", [], []) :=
  doPrediction_missing_snapshot cs2 "Nobody" "Phantom"
    (by decide) (by decide) (by decide) (Or.inl (by decide))

/-- Claim C10 (confirmed).  A falsy weight-class argument — absent or the
empty string, as for the "Open Weight" option whose internal value is
empty — returns the full roster, identically to the unfiltered call, and
`getWeightClasses` does carry the ("Open Weight", "") pair. -/
theorem getAllFighters_falsy_full_roster (s : FighterService) :
    (getAllFighters s none).1 = s.fighters ∧
    (getAllFighters s (some "")).1 = s.fighters ∧
    getAllFighters s (some "") = getAllFighters s none ∧
    ("Open Weight", "") ∈ getWeightClasses := by
  refine ⟨rfl, rfl, rfl, by decide⟩

/-!
Claim C2.
-/

/-- Counterexample to claim C2 as stated: a real prediction whose
returned supporting-factor list repeats a label ("" appears twice, from
two feature codes absent from `feature_to_name`). -/
theorem factor_dup_cex :
    (doPrediction cs2 "A" "B").2.2.1 = ["", "Label", ""] ∧
    ¬ (doPrediction cs2 "A" "B").2.2.1.Nodup := by
  decide

/-- Claim C2 (amended).  The returned supporting- and opposing-factor
lists never exceed three entries; duplicate labels can occur in the
returned lists, and deduplication happens only at rendering: within one
rendered factor section of `makePrediction`, whose bullet list
`renderBullets` never repeats a label. -/
theorem factor_lists_bounded (s : FighterService) (red blue : String)
    (b1 b2 b3 : String) :
    ((doPrediction s red blue).2.2.1.length ≤ 3 ∧
      (doPrediction s red blue).2.2.2.length ≤ 3) ∧
    (renderBullets b1 b2 b3).Nodup := by
  constructor
  · rcases doPrediction_cases s red blue with ⟨w, h⟩ | ⟨w, p, sv, h⟩
    · rw [h]; constructor <;> simp
    · rw [h]; exact ⟨mkResult_pos_len s w p sv, mkResult_neg_len s w p sv⟩
  · unfold renderBullets
    split_ifs with h1 h2 h2 <;> simp_all
    · exact ⟨⟨fun e => h1.2 e.symm, fun e => h2.2.1 e.symm⟩,
        fun e => h2.2.2 e.symm⟩
    · exact fun e => h1.2 e.symm
    · exact fun e => h2.2.1 e.symm

/-!
Claim C9.
-/

/-- Counterexample to claim C9 as stated: a `getAllFighters` call with a
weight class absent from the map changes the weight-to-fighters map
loaded at startup (the `defaultdict` read inserts an empty entry). -/
theorem getAllFighters_mutation_cex :
    (getAllFighters cs2 (some "Nosuch")).2.weight_to_fighters ≠
      cs2.weight_to_fighters := by
  decide

/-- Claim C9 (amended).  Every call leaves the startup state unchanged —
the stat and nickname accessors and `doPrediction` only read plain dicts
and frames — except `getAllFighters` with a truthy weight class missing
from the map, which appends an empty entry for that class to the
weight-to-fighters `defaultdict` and changes nothing else. -/
theorem getAllFighters_state_change (s : FighterService)
    (wc : Option String) :
    (pyFalsyStr wc = true ∨
        ddHasKey s.weight_to_fighters (wc.getD "") = true →
      (getAllFighters s wc).2 = s) ∧
    (pyFalsyStr wc = false →
      ddHasKey s.weight_to_fighters (wc.getD "") = false →
      (getAllFighters s wc).2 =
        { s with weight_to_fighters :=
            s.weight_to_fighters ++ [(wc.getD "", [])] }) := by
  constructor
  · rintro (h | h)
    · rw [getAllFighters, if_pos h]
    · rw [getAllFighters]
      by_cases hf : pyFalsyStr wc = true
      · rw [if_pos hf]
      · rw [if_neg hf, ddLookup, if_pos h]
  · intro h1 h2
    rw [getAllFighters, if_neg (by rw [h1]; exact Bool.false_ne_true),
      ddLookup, if_neg (by rw [h2]; exact Bool.false_ne_true)]

/-- Witness for C9 at a concrete state: a present class leaves the state
unchanged; a missing class appends exactly one empty entry. -/
theorem getAllFighters_state_change_w :
    (getAllFighters cs2 (some "Lightweight")).2 = cs2 ∧
    (getAllFighters cs2 (some "Nosuch")).2 =
      { cs2 with weight_to_fighters :=
          cs2.weight_to_fighters ++ [("Nosuch", [])] } :=
  ⟨(getAllFighters_state_change cs2 (some "Lightweight")).1
      (Or.inr (by decide)),
   (getAllFighters_state_change cs2 (some "Nosuch")).2
      (by decide) (by decide)⟩

/-!
Claim C1.
-/

/-- Swapping the argument order of `__makeBoutDf` swaps the two
orientation rows of the bout frame. -/
theorem makeBoutDf_swap (s : FighterService) (f1 f2 : String) :
    makeBoutDf s f2 f1 = (makeBoutDf s f1 f2).map (fun p => (p.2, p.1)) := by
  unfold makeBoutDf
  rcases getByFighter s f1 with _ | ⟨a, _ | ⟨b, t⟩⟩ <;>
    rcases getByFighter s f2 with _ | ⟨c, _ | ⟨d, u⟩⟩ <;> rfl

/-- Predictor `doPrediction` on distinct non-empty names reduces to the lookup,
averaging and winner-selection tail. -/
theorem doPrediction_real (s : FighterService) (A B : String)
    (hA : A ≠ "") (hB : B ≠ "") (hAB : A ≠ B) :
    doPrediction s A B =
      match makeBoutDf s A B with
      | none => (100, "-", [], [])
      | some (row0, row1) =>
        if (s.model.probaTrue row0 + s.model.probaFalse row1) / 2 >
            (s.model.probaFalse row0 + s.model.probaTrue row1) / 2 then
          mkResult s A ((s.model.probaTrue row0 + s.model.probaFalse row1) / 2)
            (s.model.shapTrue row0)
        else
          mkResult s B ((s.model.probaFalse row0 + s.model.probaTrue row1) / 2)
            (s.model.shapTrue row1) := by
  rw [doPrediction, if_neg (fun h => hB h.2), if_neg (fun h => hA h.1),
    if_neg (fun h => hA h.1), if_neg hAB]

/-- Counterexample to claim C1 as stated: with the tied model, both
fighters resolve to exactly one latest row, yet the two argument orders
declare different winners (each order declares its second argument). -/
theorem doPrediction_tie_cex :
    (getByFighter cs1 "A").length = 1 ∧ (getByFighter cs1 "B").length = 1 ∧
    (doPrediction cs1 "A" "B").2.1 = "B" ∧
    (doPrediction cs1 "B" "A").2.1 = "A" := by
  decide

/-- Claim C1 (amended).  For distinct non-empty names, `doPrediction`
declares the same winner in both argument orders whenever the two
per-fighter averaged probabilities are not exactly tied (the averaging
makes the reversed call compare the same two numbers, swapped); on an
exact tie the strict comparison favours the second argument of each call, so
the two orders disagree. -/
theorem doPrediction_winner_symm (s : FighterService) (A B : String)
    (hA : A ≠ "") (hB : B ≠ "") (hAB : A ≠ B)
    (htie : ∀ p q : ℚ, predProbs s A B = some (p, q) → p ≠ q) :
    (doPrediction s A B).2.1 = (doPrediction s B A).2.1 := by
  have hBA : B ≠ A := fun h => hAB h.symm
  rw [doPrediction_real s A B hA hB hAB, doPrediction_real s B A hB hA hBA,
    makeBoutDf_swap s A B]
  rcases hbd : makeBoutDf s A B with _ | ⟨r0, r1⟩
  · rfl
  · have hne : (s.model.probaTrue r0 + s.model.probaFalse r1) / 2 ≠
        (s.model.probaFalse r0 + s.model.probaTrue r1) / 2 :=
      htie _ _ (by rw [predProbs, hbd]; rfl)
    show (if (s.model.probaTrue r0 + s.model.probaFalse r1) / 2 >
            (s.model.probaFalse r0 + s.model.probaTrue r1) / 2 then
          mkResult s A ((s.model.probaTrue r0 + s.model.probaFalse r1) / 2)
            (s.model.shapTrue r0)
        else
          mkResult s B ((s.model.probaFalse r0 + s.model.probaTrue r1) / 2)
            (s.model.shapTrue r1)).2.1 =
      (if (s.model.probaTrue r1 + s.model.probaFalse r0) / 2 >
            (s.model.probaFalse r1 + s.model.probaTrue r0) / 2 then
          mkResult s B ((s.model.probaTrue r1 + s.model.probaFalse r0) / 2)
            (s.model.shapTrue r1)
        else
          mkResult s A ((s.model.probaFalse r1 + s.model.probaTrue r0) / 2)
            (s.model.shapTrue r0)).2.1
    have e1 : (s.model.probaTrue r1 + s.model.probaFalse r0) / 2
        = (s.model.probaFalse r0 + s.model.probaTrue r1) / 2 := by rw [add_comm]
    have e2 : (s.model.probaFalse r1 + s.model.probaTrue r0) / 2
        = (s.model.probaTrue r0 + s.model.probaFalse r1) / 2 := by rw [add_comm]
    rw [e1, e2]
    rcases lt_trichotomy ((s.model.probaTrue r0 + s.model.probaFalse r1) / 2)
        ((s.model.probaFalse r0 + s.model.probaTrue r1) / 2) with hlt | heq | hgt
    · rw [if_neg (lt_asymm hlt), if_pos hlt]
    · exact absurd heq hne
    · rw [if_pos hgt, if_neg (lt_asymm hgt)]

/-- Witness for the amended C1 at a concrete untied state. -/
theorem doPrediction_winner_symm_w :
    (doPrediction cs2 "A" "B").2.1 = (doPrediction cs2 "B" "A").2.1 :=
  doPrediction_winner_symm cs2 "A" "B" (by decide) (by decide) (by decide)
    (by
      intro p q h
      rw [show predProbs cs2 "A" "B" = some (9/10, 1/10) by decide] at h
      simp only [Option.some.injEq, Prod.mk.injEq] at h
      rw [← h.1, ← h.2]
      decide)


/-!
Claim C3.
-/

/-- Appending under key `k` extends exactly the entry read under `k`. -/
theorem ddGet_ddAppend (dd : List (String × List String)) (k v w : String) :
    ddGet (ddAppend dd k v) w =
      if k = w then ddGet dd w ++ [v] else ddGet dd w := by
  induction dd with
  | nil =>
    by_cases h : k = w <;> simp [ddAppend, ddGet, h]
  | cons p rest ih =>
    obtain ⟨a, vs⟩ := p
    by_cases h1 : a = k
    · subst h1
      by_cases h2 : a = w <;> simp [ddAppend, ddGet, h2]
    · by_cases h2 : a = w
      · subst h2
        have hka : ¬ k = a := fun e => h1 e.symm
        simp [ddAppend, ddGet, h1, hka]
      · simp [ddAppend, ddGet, h1, h2, ih]

/-- Folding the per-row appends over the table accumulates, under each
weight class, the fighters of its rows in row order. -/
theorem ddGet_foldl_ddAppend (df : List Row) (dd : List (String × List String))
    (w : String) :
    ddGet (df.foldl (fun d r => ddAppend d r.weight_class r.fighter) dd) w =
      ddGet dd w ++
        (df.filter (fun r => r.weight_class = w)).map (fun r => r.fighter) := by
  induction df generalizing dd with
  | nil => simp
  | cons r rest ih =>
    rw [List.foldl_cons, ih, ddGet_ddAppend]
    by_cases h : r.weight_class = w <;> simp [h, List.filter_cons]

/-- The weight-to-fighters map reads back, for each class, exactly the
fighters of the full table rows bearing that class, in row order. -/
theorem mkWeightToFighters_get (df : List Row) (w : String) :
    ddGet (mkWeightToFighters df) w
      = (df.filter (fun r => r.weight_class = w)).map (fun r => r.fighter) := by
  have h := ddGet_foldl_ddAppend df [] w
  simpa [mkWeightToFighters, ddGet] using h

/-- A key absent from a `defaultdict` reads as the empty list. -/
theorem ddGet_eq_nil_of_no_key (dd : List (String × List String)) (k : String)
    (h : ddHasKey dd k = false) : ddGet dd k = [] := by
  induction dd with
  | nil => rfl
  | cons p rest ih =>
    simp only [ddHasKey, Bool.or_eq_false_iff, decide_eq_false_iff_not] at h
    simp [ddGet, h.1, ih h.2]

/-- The value the `defaultdict` read returns is the side-effect-free read. -/
theorem ddLookup_fst (dd : List (String × List String)) (k : String) :
    (ddLookup dd k).1 = ddGet dd k := by
  rw [ddLookup]
  by_cases h : ddHasKey dd k = true
  · rw [if_pos h]
  · rw [if_neg h, ddGet_eq_nil_of_no_key dd k (by simpa using h)]

/-- A successful `__init__` stores the maps it was defined to build. -/
theorem initFighterService_fields (df : List Row)
    (sher : List (String × Option String)) (m : Model) (s : FighterService)
    (hs : initFighterService df sher m = some s) :
    s.weight_to_fighters = mkWeightToFighters df ∧
      s.fighters = pySetDedup (df.map (fun r => r.fighter)) := by
  unfold initFighterService at hs
  rcases h1 : mkWinsMap (latestFights df) with _ | wm <;> rw [h1] at hs
  · exact Option.noConfusion hs
  · rcases h2 : mkLossesMap (latestFights df) with _ | lm <;> rw [h2] at hs
    · exact Option.noConfusion hs
    · have h3 := Option.some.inj hs
      rw [← h3]
      exact ⟨rfl, rfl⟩

/-- Counterexample to claim C3 as stated: fighter "X", whose latest
record is at Welterweight, is nevertheless returned by
`getAllFighters "Lightweight"`, because the map is built from every row
of the table, not from latest records. -/
theorem getAllFighters_latest_cex :
    "X" ∈ (getAllFighters exService3 (some "Lightweight")).1 ∧
    ((latestFights exDf3).filter (fun r => r.fighter = "X")).map
        (fun r => r.weight_class) = ["Welterweight"] := by
  decide

/-- Claim C3 (amended).  For a service built by `__init__` and a
non-empty weight class `w`, `getAllFighters w` returns exactly the
fighters of the table rows whose weight class is `w` — one occurrence
per such row, in row order — i.e. the fighters who have ever fought at
`w`, not those whose latest record is at `w`; a class matching no row
yields the empty result. -/
theorem getAllFighters_eq_filter (df : List Row)
    (sher : List (String × Option String)) (m : Model) (s : FighterService)
    (w : String) (hs : initFighterService df sher m = some s) (hw : w ≠ "") :
    (getAllFighters s (some w)).1
      = (df.filter (fun r => r.weight_class = w)).map (fun r => r.fighter) := by
  have hwtf := (initFighterService_fields df sher m s hs).1
  have hf : pyFalsyStr (some w) = false := by simp [pyFalsyStr, hw]
  rw [getAllFighters, if_neg (by rw [hf]; exact Bool.false_ne_true)]
  show (ddLookup s.weight_to_fighters ((some w).getD "")).1 = _
  rw [ddLookup_fst, hwtf, mkWeightToFighters_get]
  rfl

/-- Witness for the amended C3 at the concrete table `exDf3`. -/
theorem getAllFighters_eq_filter_w :
    (getAllFighters exService3 (some "Lightweight")).1
      = (exDf3.filter (fun r => r.weight_class = "Lightweight")).map
          (fun r => r.fighter) :=
  getAllFighters_eq_filter exDf3 [] tieModel exService3 "Lightweight"
    rfl (by decide)

end
